import Mathlib

/-!
Verification of the `type_safe` strong-typedef library
(`include/type_safe/strong_typedef.hpp`, `include/type_safe/detail/assert.hpp`).

The development has two layers, mirroring the two layers of the C++ source:

* a **value-level model**: `strong_typedef Tag T` is the wrapper class of
  `strong_typedef.hpp` lines 44-101, holding exactly one representation value
  `value_`; every generated operator of the capability system forwards to the
  representation, and is embedded here as a pure function on wrappers.  The
  claims are all about wrappers over the built-in `int`, embedded as `Int`
  (C++ `int` division truncates toward zero, `Int.tdiv` / `Int.tmod`, which is
  used wherever a concrete division value could matter).

* a **type-level model**: the SFINAE guards of the operator macros
  (`enable_if_convertible`, lines 155-159, and `enable_if_convertible_same`,
  lines 161-163) decide which overloads participate in overload resolution.
  They are embedded as Boolean predicates over a small closed universe
  `CppType` of the concrete C++ types appearing in the claims, with
  `is_same` / `is_base_of` / `is_convertible` recording the standard trait
  values that hold for these types (all constructors and conversion operators
  of `strong_typedef` are `explicit`, lines 55-91, so no implicit conversion
  exists between a wrapper and its representation or between two wrappers).
-/

namespace type_safe

/-- The wrapper class `strong_typedef<Tag, T>` (strong_typedef.hpp lines 44-101):
a nominal type distinguished by the phantom `Tag`, owning exactly one value
`value_` of the representation type `T`. -/
structure strong_typedef (Tag : Type) (T : Type) where
  value_ : T
  deriving DecidableEq

/-- Accessor `get` (lines 119-144).  The four C++ value-category overloads all
return (a reference to) the stored `value_`; in the value model they collapse
to one projection. -/
def get {Tag T : Type} (x : strong_typedef Tag T) : T := x.value_

/-- Constructor `explicit strong_typedef(const T& value)` (line 55): copies the
representation value into `value_`. -/
def strong_typedef.ofValue (Tag : Type) {T : Type} (v : T) : strong_typedef Tag T := ⟨v⟩

/-- Constructor `explicit strong_typedef(T&& value)` (lines 60-64): moves the
representation value into `value_`; in the value model a move transfers the
same value. -/
def strong_typedef.ofValueMove (Tag : Type) {T : Type} (v : T) : strong_typedef Tag T := ⟨v⟩

/-- Default constructor `strong_typedef() : value_()` (lines 49-51):
value-initializes the representation.  Value-initialization of the
representation type is modelled by `Inhabited.default`; for the built-in
`int` representation it is the zero value, matching `default = 0` on `Int`. -/
def strong_typedef.valueInit (Tag T : Type) [Inhabited T] : strong_typedef Tag T := ⟨default⟩

/-- Member `friend void swap(strong_typedef& a, strong_typedef& b)`
(lines 93-97): calls `std::swap` on the two stored representations, so each
wrapper ends up holding the value the other held.  The two by-reference
parameters are modelled by returning the pair of post-state wrappers. -/
def swap {Tag T : Type} (a b : strong_typedef Tag T) :
    strong_typedef Tag T × strong_typedef Tag T := (⟨get b⟩, ⟨get a⟩)

/-- Wrappers holding equal representations are equal (structure with one field). -/
theorem strong_typedef.ext_get {Tag T : Type} {x y : strong_typedef Tag T}
    (h : get x = get y) : x = y := by
  cases x
  cases y
  cases h
  rfl

/-- C4: constructing a strong typedef from a representation value `v`, by copy
(line 55) or by move (lines 60-64), and then explicitly extracting the
underlying value (lines 119-144) yields a value equal to `v`. -/
theorem C4_round_trip (Tag T : Type) (v : T) :
    get (strong_typedef.ofValue Tag v) = v ∧ get (strong_typedef.ofValueMove Tag v) = v :=
  ⟨rfl, rfl⟩

/-- C7: after `swap(a, b)` (lines 93-97) the first wrapper extracts to the
value the second held before and vice versa; swapping back restores the
original pair exactly, so each wrapper owns its own independent value
(the model is a value model, so the two results never alias). -/
theorem C7_swap_exchanges (Tag T : Type) (a b : strong_typedef Tag T) :
    get (swap a b).1 = get b ∧ get (swap a b).2 = get a
      ∧ swap (swap a b).1 (swap a b).2 = (a, b) :=
  ⟨rfl, rfl, rfl⟩

/-- C8: the no-argument constructor (lines 49-51) value-initializes the
representation, so extraction yields the representation type default value;
for a wrapper over the built-in `int` that value is zero. -/
theorem C8_default_value_init (Tag T : Type) [Inhabited T] :
    get (strong_typedef.valueInit Tag T) = (default : T)
      ∧ get (strong_typedef.valueInit Tag Int) = 0 :=
  ⟨rfl, rfl⟩

/-! Operators generated by the primitive capabilities for a wrapper over the
built-in `int`.  `TYPE_SAFE_DETAIL_MAKE_OP(Op, Name, StrongTypedef)`
(lines 196-260) produces, for each arithmetic capability, operators computing
`StrongTypedef(get(lhs) Op get(rhs))`; the four same-type value-category
variants collapse to one function in the value model.
`TYPE_SAFE_DETAIL_MAKE_OP_COMPOUND(Op=, StrongTypedef)` (lines 294-322)
produces `lhs Op= rhs` forwarding the compound operator of `int`, which leaves
`lhs` holding `get(lhs) Op get(rhs)`; the by-reference left operand is
modelled by returning its post-state. -/

/-- Operator `+` of capability `addition` (line 371 via `TYPE_SAFE_DETAIL_MAKE_OP`). -/
def stAdd {Tag : Type} (a b : strong_typedef Tag Int) : strong_typedef Tag Int :=
  ⟨get a + get b⟩

/-- Operator `-` of capability `subtraction` (line 372). -/
def stSub {Tag : Type} (a b : strong_typedef Tag Int) : strong_typedef Tag Int :=
  ⟨get a - get b⟩

/-- Operator `*` of capability `multiplication` (line 373). -/
def stMul {Tag : Type} (a b : strong_typedef Tag Int) : strong_typedef Tag Int :=
  ⟨get a * get b⟩

/-- Operator `/` of capability `division` (line 374); C++ `int` division
truncates toward zero, i.e. `Int.tdiv`. -/
def stDiv {Tag : Type} (a b : strong_typedef Tag Int) : strong_typedef Tag Int :=
  ⟨Int.tdiv (get a) (get b)⟩

/-- Operator `%` of capability `modulo` (line 375); C++ `int` remainder takes
the sign of the dividend, i.e. `Int.tmod`. -/
def stMod {Tag : Type} (a b : strong_typedef Tag Int) : strong_typedef Tag Int :=
  ⟨Int.tmod (get a) (get b)⟩

/-- Compound `+=` of capability `addition` (line 329 via
`TYPE_SAFE_DETAIL_MAKE_OP_COMPOUND`): post-state of the left operand. -/
def stAddAssign {Tag : Type} (lhs rhs : strong_typedef Tag Int) : strong_typedef Tag Int :=
  ⟨get lhs + get rhs⟩

/-- Compound `-=` of capability `subtraction`. -/
def stSubAssign {Tag : Type} (lhs rhs : strong_typedef Tag Int) : strong_typedef Tag Int :=
  ⟨get lhs - get rhs⟩

/-- Compound `*=` of capability `multiplication`. -/
def stMulAssign {Tag : Type} (lhs rhs : strong_typedef Tag Int) : strong_typedef Tag Int :=
  ⟨get lhs * get rhs⟩

/-- Compound `/=` of capability `division` (truncating `int` division). -/
def stDivAssign {Tag : Type} (lhs rhs : strong_typedef Tag Int) : strong_typedef Tag Int :=
  ⟨Int.tdiv (get lhs) (get rhs)⟩

/-- Compound `%=` of capability `modulo`. -/
def stModAssign {Tag : Type} (lhs rhs : strong_typedef Tag Int) : strong_typedef Tag Int :=
  ⟨Int.tmod (get lhs) (get rhs)⟩

/-- Unary `+` of capability `unary_plus` (lines 417-433):
`StrongTypedef(+get(lhs))`. -/
def stUnaryPlus {Tag : Type} (a : strong_typedef Tag Int) : strong_typedef Tag Int :=
  ⟨get a⟩

/-- Unary `-` of capability `unary_minus` (lines 435-451):
`StrongTypedef(-get(lhs))`. -/
def stUnaryMinus {Tag : Type} (a : strong_typedef Tag Int) : strong_typedef Tag Int :=
  ⟨-get a⟩

/-- Prefix `operator++` of capability `increment` (lines 381-386): applies the
underlying `++` (for `int`: add one) in place and returns the operand; the
by-reference receiver is modelled by returning its post-state. -/
def stIncPre {Tag : Type} (a : strong_typedef Tag Int) : strong_typedef Tag Int :=
  ⟨get a + 1⟩

/-- Postfix `operator++(int)` of capability `increment` (lines 389-394):
`auto result = *this; ++*this; return result` — returns the pair
(returned copy holding the old value, post-state of the operand). -/
def stIncPost {Tag : Type} (a : strong_typedef Tag Int) :
    strong_typedef Tag Int × strong_typedef Tag Int := (a, stIncPre a)

/-- Prefix `operator--` of capability `decrement` (lines 401-406). -/
def stDecPre {Tag : Type} (a : strong_typedef Tag Int) : strong_typedef Tag Int :=
  ⟨get a - 1⟩

/-- Postfix `operator--(int)` of capability `decrement` (lines 409-414):
returns the pair (returned copy holding the old value, post-state). -/
def stDecPost {Tag : Type} (a : strong_typedef Tag Int) :
    strong_typedef Tag Int × strong_typedef Tag Int := (a, stDecPre a)

/-- C2: for a wrapper with the `integer_arithmetic` capability (lines 453-464,
bundling `addition`, `subtraction`, `multiplication`, `division`, `modulo`,
`increment`, `decrement` and their compound forms), every generated operator
yields a wrapper extracting to the result of the same operator applied
directly to the extracted representations: the binary `+ - * / %`, the
compound `+= -= *= /= %=`, and `++`/`--` (whose prefix forms yield the
stepped value and whose postfix forms yield the prior value, exactly as the
underlying `int` operators do). -/
theorem C2_integer_arithmetic_forwards (Tag : Type) (a b : strong_typedef Tag Int) :
    get (stAdd a b) = get a + get b
      ∧ get (stSub a b) = get a - get b
      ∧ get (stMul a b) = get a * get b
      ∧ get (stDiv a b) = Int.tdiv (get a) (get b)
      ∧ get (stMod a b) = Int.tmod (get a) (get b)
      ∧ get (stAddAssign a b) = get a + get b
      ∧ get (stSubAssign a b) = get a - get b
      ∧ get (stMulAssign a b) = get a * get b
      ∧ get (stDivAssign a b) = Int.tdiv (get a) (get b)
      ∧ get (stModAssign a b) = Int.tmod (get a) (get b)
      ∧ get (stIncPre a) = get a + 1
      ∧ get (stIncPost a).1 = get a
      ∧ get (stDecPre a) = get a - 1
      ∧ get (stDecPost a).1 = get a :=
  ⟨rfl, rfl, rfl, rfl, rfl, rfl, rfl, rfl, rfl, rfl, rfl, rfl, rfl, rfl⟩

/-- C9: the postfix `++` (lines 389-394) returns a wrapper holding the value
the operand held before, while the operand is left holding the incremented
value, which is exactly the result the prefix form returns; symmetrically for
`--` (lines 397-415). -/
theorem C9_postfix_returns_old (Tag : Type) (a : strong_typedef Tag Int) :
    (stIncPost a).1 = a
      ∧ get (stIncPost a).2 = get a + 1
      ∧ (stIncPost a).2 = stIncPre a
      ∧ (stDecPost a).1 = a
      ∧ get (stDecPost a).2 = get a - 1
      ∧ (stDecPost a).2 = stDecPre a :=
  ⟨rfl, rfl, rfl, rfl, rfl, rfl⟩

/-! Type-level model of overload participation.

The claims about compile-time acceptance and rejection concern concrete C++
types.  We close them into a small universe: the built-in `int`; two unrelated
wrappers `W` and `W2` over `int`, each declared with `integer_arithmetic`
only; a wrapper `Wm` over `int` declared with `integer_arithmetic` and
additionally `mixed_addition<Wm, int>`; a class `DW` derived from `W`; and a
class `CvW` that is unrelated to the wrappers by inheritance but declares an
implicit conversion operator to `W`.  The trait predicates below record the
values `std::is_same` / `std::is_base_of` / `std::is_convertible` take on
this universe (reference and cv qualifiers are already stripped, matching the
`std::decay` the guards apply first). -/

/-- Closed universe of the C++ operand types used by the compile-time claims. -/
inductive CppType where
  | int
  | W
  | W2
  | Wm
  | DW
  | CvW
  deriving DecidableEq, Fintype

/-- Discriminates the class types of the universe from the scalar `int`. -/
def is_class : CppType → Bool
  | .int => false
  | _ => true

/-- Trait `std::is_same` on the (already decayed) universe. -/
def is_same (a b : CppType) : Bool := a == b

/-- Trait `std::is_base_of Base Derived`: true when `Base` is a base class of
`Derived` or the two are the same class type; in the universe the only proper
inheritance edge between operand types is `DW : W`.  (The capability bases
such as `addition<W>` are bases of the wrappers, never the reverse, so no
wrapper or `int` is a base of another universe member.) -/
def is_base_of (Base Derived : CppType) : Bool :=
  (is_class Base && is_same Base Derived) || (Base == CppType.W && Derived == CppType.DW)

/-- Trait `std::is_convertible From To` (implicit convertibility).  Every
constructor and conversion operator of `strong_typedef` is `explicit`
(strong_typedef.hpp lines 55-91), so no implicit conversion exists between a
wrapper and `int` or between two distinct wrappers.  The implicit conversions
on the universe are: identity (copy), the derived-to-base conversion
`DW` to `W`, and the user conversion operator of `CvW` to `W`. -/
def is_convertible : CppType → CppType → Bool
  | .DW, .W => true
  | .CvW, .W => true
  | a, b => is_same a b

/-- Guard `detail::enable_if_convertible<From, To>` (strong_typedef.hpp lines
155-159): enabled when `From` (decayed) is not the same type as `To`, `To` is
not a base of `From`, and `From` is implicitly convertible to `To`.  In every
use the macros instantiate `To` with the strong typedef itself
(lines 230, 238, 246, 255). -/
def enable_if_convertible (From To : CppType) : Bool :=
  !is_same From To && !is_base_of To From && is_convertible From To

/-- Guard `detail::enable_if_convertible_same<From, To>` (lines 161-163):
enabled when `From` (decayed) is implicitly convertible to `To`. -/
def enable_if_convertible_same (From To : CppType) : Bool :=
  is_convertible From To

/-- Representation type of each wrapper in the universe (the
`underlying_type` mapping, lines 106-114); `none` for non-wrappers. -/
def repr_of : CppType → Option CppType
  | .W => some .int
  | .W2 => some .int
  | .Wm => some .int
  | .DW => some .int
  | _ => none

/-- Modelled from the claim C1 wording of the guard: `Other` not identical to
`S`, not derived from `S`, and implicitly convertible to the representation
type of `S`.  Written from the spec sentence, to be compared with the guard
the source actually uses. -/
def guard_spec_C1 (Other S : CppType) : Bool :=
  !is_same Other S && !is_base_of S Other
    && (match repr_of S with
        | some R => is_convertible Other R
        | none => false)

/-- Amended guard: `Other` not identical to `S`, not derived from `S`, and
implicitly convertible to `S` itself. -/
def guard_C1_amended (Other S : CppType) : Bool :=
  !is_same Other S && !is_base_of S Other && is_convertible Other S

/-- Wrapper base deduced for the `addition` operators: template argument
deduction for `operator+(const addition<S>&, ...)` (lines 196-260 applied at
line 371) succeeds on an argument of type `X` exactly when `X` derives from
`addition<S>` for a unique `S` — the wrapper that listed `integer_arithmetic`
(`DW` inherits `addition<W>` through `W`). -/
def arith_base : CppType → Option CppType
  | .W => some .W
  | .W2 => some .W2
  | .Wm => some .Wm
  | .DW => some .W
  | _ => none

/-- The `mixed_addition<S, OtherArg>` base, if any: only `Wm` opts in,
with `OtherArg = int`. -/
def mixed_addition_arg : CppType → Option CppType
  | .Wm => some .int
  | _ => none

/-- Participation of any `operator+` overload for argument types `(X, Y)`:
the same-type overloads of `TYPE_SAFE_DETAIL_MAKE_OP` (lines 196-226, both
operands must bind to `addition<S>` for the same `S`), its mixed overloads
`(S, Other)` and `(Other, S)` guarded by `enable_if_convertible` against the
strong typedef itself (lines 227-260), and the `mixed_addition` overloads of
`TYPE_SAFE_DETAIL_MAKE_OP_MIXED` guarded by `enable_if_convertible_same`
against `OtherArg` (lines 263-291).  The expression `x + y` compiles exactly
when some overload participates. -/
def plus_viable (X Y : CppType) : Bool :=
  (match arith_base X, arith_base Y with
   | some S1, some S2 => S1 == S2
   | _, _ => false)
  || (match arith_base X with
      | some S => enable_if_convertible Y S
      | none => false)
  || (match arith_base Y with
      | some S => enable_if_convertible X S
      | none => false)
  || (match mixed_addition_arg X with
      | some A => enable_if_convertible_same Y A
      | none => false)
  || (match mixed_addition_arg Y with
      | some A => enable_if_convertible_same X A
      | none => false)

/-- C1 counterexample: at `Other = int`, `S = W` (a wrapper over `int` with
`integer_arithmetic`), the claimed guard holds — `int` is not `W`, not derived
from `W`, and convertible to the representation `int` — yet the guard the
source uses (`enable_if_convertible`, which tests convertibility to `W`
itself, line 159) is false, because all constructors of the wrapper are
explicit.  So a plain `int` right-hand operand does **not** satisfy the
generated guard, contradicting the claim. -/
theorem C1_counterexample :
    guard_spec_C1 CppType.int CppType.W = true
      ∧ enable_if_convertible CppType.int CppType.W = false := by
  decide

/-- C1 (amended): the mixed-type overloads participate exactly when `Other`,
after stripping references, is (a) not identical to `S`, (b) not derived from
`S`, and (c) implicitly convertible to `S` itself — not merely to the
representation type of `S`.  Over the whole universe the source guard equals
this condition; it does fire for a type with an implicit conversion operator
to `S` (`CvW`), and it rejects a plain `int` operand as well as a derived
class and an unrelated wrapper. -/
theorem C1_mixed_overload_guard :
    (∀ Other S : CppType, enable_if_convertible Other S = guard_C1_amended Other S)
      ∧ enable_if_convertible CppType.CvW CppType.W = true
      ∧ enable_if_convertible CppType.int CppType.W = false
      ∧ enable_if_convertible CppType.DW CppType.W = false
      ∧ enable_if_convertible CppType.W2 CppType.W = false := by
  decide

/-- Tag for the wrapper `Wm` of the universe, used for value-level statements
about `mixed_addition`. -/
structure WmTag where

/-- Operator `+` of `mixed_addition<S, OtherArg>` for a left wrapper operand
(`TYPE_SAFE_DETAIL_MAKE_OP_MIXED` lines 264-277 applied at line 337):
`StrongTypedef(get(lhs) + rhs)`. -/
def mixedAdd {Tag : Type} (lhs : strong_typedef Tag Int) (rhs : Int) :
    strong_typedef Tag Int := ⟨get lhs + rhs⟩

/-- Operator `+` of `mixed_addition<S, OtherArg>` for a right wrapper operand
(lines 278-291): `StrongTypedef(lhs + get(rhs))`. -/
def mixedAddRev {Tag : Type} (lhs : Int) (rhs : strong_typedef Tag Int) :
    strong_typedef Tag Int := ⟨lhs + get rhs⟩

/-- C5 counterexample: with `integer_arithmetic` alone, no `operator+`
overload participates for `(W, int)` or `(int, W)` — the same-type overloads
need two wrapper operands, the mixed overloads require implicit
convertibility to `W` itself, which the explicit constructors forbid — so
`W(3) + 4` and `4 + W(3)` are rejected at compile time rather than evaluating
to `W(7)` as the claim states. -/
theorem C5_counterexample :
    plus_viable CppType.W CppType.int = false
      ∧ plus_viable CppType.int CppType.W = false := by
  decide

/-- C5 (amended): for a wrapper `W` over `int` with `integer_arithmetic`
alone, `W(3) + 4` and `4 + W(3)` are rejected at compile time, as is adding a
value of a different wrapper type (`W(3) + W2(4)` in either order); a wrapper
`Wm` that additionally opts into `mixed_addition<Wm, int>` accepts a plain
`int` operand on either side, and there `Wm(3) + 4` and `4 + Wm(3)` both
equal `Wm(7)`. -/
theorem C5_mixed_arithmetic :
    plus_viable CppType.W CppType.W2 = false
      ∧ plus_viable CppType.W2 CppType.W = false
      ∧ plus_viable CppType.Wm CppType.int = true
      ∧ plus_viable CppType.int CppType.Wm = true
      ∧ mixedAdd (strong_typedef.ofValue WmTag 3) 4 = strong_typedef.ofValue WmTag 7
      ∧ mixedAddRev 4 (strong_typedef.ofValue WmTag 3) = strong_typedef.ofValue WmTag 7 := by
  refine ⟨by decide, by decide, by decide, by decide, rfl, rfl⟩

/-! Model of `random_access_iterator` (strong_typedef.hpp lines 601-650).

The capability forwards every iterator operation to the underlying
representation: `operator+`/`operator-` add the distance to it (lines
625-642), `operator-` between iterators subtracts the representations
(lines 645-649), `operator<` comes from `relational_comparison` (line 604,
via `TYPE_SAFE_DETAIL_MAKE_OP` at line 357), `operator++` from `increment`
(through the `bidirectional` / `forward` / `input` ladder, lines 566-599),
and `operator*` from `dereference` (lines 515-546).  The canonical
random-access representation, a pointer into an array, is embedded as an
integer address together with a memory environment `env` mapping addresses to
elements; pointer `+ n` and `++` become address arithmetic, and dereference
reads `env` at the address. -/

/-- Dereference `operator*` of the `dereference` capability (lines 520-531):
reads the element the underlying pointer designates, i.e. the memory
environment at the stored address. -/
def riDeref {Tag A : Type} (env : Int → A) (it : strong_typedef Tag Int) : A :=
  env (get it)

/-- Iterator `operator+(iter, n)` (lines 625-629):
`StrongTypedef(underlying + n)`. -/
def riAdd {Tag : Type} (it : strong_typedef Tag Int) (n : Int) : strong_typedef Tag Int :=
  ⟨get it + n⟩

/-- Iterator `operator+(n, iter)` (lines 632-635): defined as `iter + n`. -/
def riAddRev {Tag : Type} (n : Int) (it : strong_typedef Tag Int) : strong_typedef Tag Int :=
  riAdd it n

/-- Iterator `operator-(iter, n)` (lines 638-642). -/
def riSubN {Tag : Type} (it : strong_typedef Tag Int) (n : Int) : strong_typedef Tag Int :=
  ⟨get it - n⟩

/-- Iterator difference `operator-(lhs, rhs)` (lines 645-649): difference of
the underlying representations. -/
def riDiff {Tag : Type} (a b : strong_typedef Tag Int) : Int :=
  get a - get b

/-- Operator `<` of `relational_comparison` (line 357):
`bool(get(lhs) < get(rhs))`. -/
def stLt {Tag : Type} (a b : strong_typedef Tag Int) : Bool :=
  decide (get a < get b)

/-- Repeated prefix increment advances the underlying address by the count. -/
theorem get_iterate_stIncPre (Tag : Type) (a : strong_typedef Tag Int) (n : Nat) :
    get (stIncPre^[n] a) = get a + n := by
  induction n with
  | zero => simp
  | succ k ih =>
      rw [Function.iterate_succ_apply']
      show get (stIncPre^[k] a) + 1 = get a + (k + 1 : Nat)
      rw [ih]
      push_cast
      ring

/-- C3: for a wrapper composed with `random_access_iterator` over element type
`A`, with the underlying pointer modelled as an address into the memory
environment `env`: `*(a + n)` equals the element obtained by dereferencing
the `n`-th successor of `a` reached by repeated increment; `b - a` equals `n`
exactly when `n` increments lead from `a` to `b`; and `a < b` holds exactly
when the distance `b - a` is positive. -/
theorem C3_random_access_iterator_contract (Tag A : Type) (env : Int → A)
    (a b : strong_typedef Tag Int) (n : Nat) :
    riDeref env (riAdd a (n : Int)) = riDeref env (stIncPre^[n] a)
      ∧ (stIncPre^[n] a = b ↔ riDiff b a = (n : Int))
      ∧ (stLt a b = true ↔ 0 < riDiff b a) := by
  refine ⟨?_, ⟨?_, ?_⟩, ?_⟩
  · show env (get a + (n : Int)) = env (get (stIncPre^[n] a))
    rw [get_iterate_stIncPre]
  · intro h
    show get b - get a = (n : Int)
    rw [← h, get_iterate_stIncPre]
    ring
  · intro h
    refine strong_typedef.ext_get ?_
    rw [get_iterate_stIncPre]
    have hd : get b - get a = (n : Int) := h
    omega
  · show decide (get a < get b) = true ↔ 0 < get b - get a
    rw [decide_eq_true_iff]
    omega

/-- C3 witness: the contract evaluated at the identity environment, the
iterators at addresses 2 and 5, and the distance 3. -/
theorem C3_random_access_iterator_contract_witness :
    riDeref (fun i => i) (riAdd (strong_typedef.ofValue Unit 2) ((3 : Nat) : Int))
        = riDeref (fun i => i) (stIncPre^[3] (strong_typedef.ofValue Unit 2))
      ∧ (stIncPre^[3] (strong_typedef.ofValue Unit 2) = strong_typedef.ofValue Unit 5
          ↔ riDiff (strong_typedef.ofValue Unit 5) (strong_typedef.ofValue Unit 2)
              = ((3 : Nat) : Int))
      ∧ (stLt (strong_typedef.ofValue Unit 2) (strong_typedef.ofValue Unit 5) = true
          ↔ 0 < riDiff (strong_typedef.ofValue Unit 5) (strong_typedef.ofValue Unit 2)) :=
  C3_random_access_iterator_contract Unit Int (fun i => i)
    (strong_typedef.ofValue Unit 2) (strong_typedef.ofValue Unit 5) 3

/-! Model of the assertion primitive
(`include/type_safe/detail/assert.hpp` lines 23-36).

`detail::constexpr_assert<Return>(condition, loc, message)` is compiled in
one of two modes, selected by the `TYPE_SAFE_ENABLE_ASSERTIONS` macro and
modelled as the Boolean `enabled`:

* enabled: `condition ? Return() :
  (assert_handler{}.handle(loc, "", message), std::abort(), Return())` —
  a true condition yields a value-initialized `Return()`; a false condition
  makes the handler print the location and message and then calls
  `std::abort`, so the call never returns;
* disabled: `return Return();` unconditionally.

The observable outcome is either normal return of a value or termination
carrying the reported location and message. -/

/-- The `debug_assert::source_location` passed to the handler: file name and
line number of the failed assertion. -/
structure source_location where
  file_name : String
  line_number : Nat
  deriving DecidableEq

/-- Observable outcome of a call to the assertion primitive: normal return of
a value, or process termination after reporting a location and message. -/
inductive AssertOutcome (R : Type) where
  | returned (r : R)
  | aborted (loc : source_location) (message : String)
  deriving DecidableEq

/-- Function `detail::constexpr_assert<Return>` (assert.hpp lines 23-36),
with the `TYPE_SAFE_ENABLE_ASSERTIONS` compile-time switch as `enabled`.
Value-initialization `Return()` is modelled by `Inhabited.default`. -/
def constexpr_assert (R : Type) [Inhabited R] (enabled condition : Bool)
    (loc : source_location) (message : String) : AssertOutcome R :=
  if enabled then
    if condition then AssertOutcome.returned default
    else AssertOutcome.aborted loc message
  else AssertOutcome.returned default

/-- C6: with assertions enabled, a false condition makes the primitive report
the location and message and terminate the process; with assertions disabled,
the same call returns a default-constructed value of the requested result
type and does not terminate. -/
theorem C6_assertion_modes (R : Type) [Inhabited R] (loc : source_location)
    (message : String) :
    constexpr_assert R true false loc message = AssertOutcome.aborted loc message
      ∧ constexpr_assert R false false loc message = AssertOutcome.returned default :=
  ⟨rfl, rfl⟩

/-- C10: whenever the assertion primitive returns at all, the returned value
is the default-constructed value of the requested return type, regardless of
the mode, condition, location, or message arguments. -/
theorem C10_returns_default (R : Type) [Inhabited R] (enabled condition : Bool)
    (loc : source_location) (message : String) (r : R)
    (h : constexpr_assert R enabled condition loc message = AssertOutcome.returned r) :
    r = default := by
  cases enabled <;> cases condition <;>
    simp only [constexpr_assert, if_true, if_false, Bool.true_eq_false,
      Bool.false_eq_true, ite_true, ite_false, reduceIte] at h <;>
    first
      | exact (AssertOutcome.returned.inj h).symm
      | cases h

/-- C10 witness: the disabled-mode call with a false condition returns `0`,
the default value of `Int`. -/
theorem C10_returns_default_witness : (0 : Int) = default :=
  C10_returns_default Int false false ⟨"file.cpp", 42⟩ "condition" 0 rfl

end type_safe
